import Mathlib

/-!
Verification development for the `contador-palabras-contexto` rewrite service.

The Python sources under `src/` are shallowly embedded below:

* texts are Lean `String`s; character-level work happens on `String.data`
  (a `List Char`);
* Python `float` values (similarity scores, costs, thresholds) are modelled
  as exact rationals `ℚ`, except the embedding vectors of the semantic
  validator, which are modelled as real numbers `ℝ` because cosine
  similarity involves square roots;
* Python `re.findall` for the five concrete patterns used by the program is
  implemented as a left-to-right scanner (`reFindAll`) plus one matcher per
  pattern; word characters are modelled as ASCII alphanumerics and
  underscore, whitespace as the ASCII whitespace characters, matching the
  behaviour of the source patterns on the ASCII texts they are designed for;
* the two network collaborators (`LLMClient.rewrite_text`,
  `LLMClient.get_embedding`) are modelled as injected functions returning
  `Except`, mirroring the `try/except` handling in the callers;
* fractional literals of the source (`0.85`, `0.75`, `0.4`, `-1.0`) are
  written with `mkRat` so that concrete runs reduce inside the kernel.
-/

namespace ContadorPalabras

/-! ## Character classes (models of Python's `\d`, `\s`, `\w`, `[A-Z]`) -/

/-- Model of Python's `\s` on the ASCII range: space, tab, newline,
carriage return, vertical tab, form feed. -/
def pySpace (c : Char) : Bool :=
  c = ' ' ∨ c = '\t' ∨ c = '\n' ∨ c = '\r' ∨ c = '\x0b' ∨ c = '\x0c'

/-- Model of Python's `\w` (word character) on the ASCII range. -/
def isWordChar (c : Char) : Bool :=
  c.isAlphanum ∨ c = '_'

/-- Characters matched by the character class `[A-Z]`. -/
def isUpperAZ (c : Char) : Bool :=
  'A' ≤ c ∧ c ≤ 'Z'

/-! ## Whitespace splitting (model of Python's `str.split()`) -/

/-- Accumulator-based splitter: `acc` holds the reversed current word. -/
def pySplitAux : List Char → List Char → List (List Char)
  | [], acc => if acc.isEmpty then [] else [acc.reverse]
  | c :: cs, acc =>
    if pySpace c then
      if acc.isEmpty then pySplitAux cs [] else acc.reverse :: pySplitAux cs []
    else
      pySplitAux cs (c :: acc)

/-- Model of Python's `str.split()` with no separator: splits on runs of
whitespace and drops empty pieces. -/
def pySplit (s : List Char) : List (List Char) :=
  pySplitAux s []

/-- Model of Python's substring test `needle in hay` for strings. -/
def strContains (hay needle : List Char) : Bool :=
  match hay with
  | [] => needle.isEmpty
  | _ :: t => needle.isPrefixOf hay || strContains t needle

/-! ## `re.findall` for the patterns of the program

Each matcher receives the character preceding the current position (`prev`,
`none` at the start of the text) — needed for the `\b` anchors — and the
remaining text.  On success it returns the matched characters together with
the rest of the text; the matched characters are always a prefix of the
input, so every reported match is a contiguous substring of the text.
Greedy matching with backtracking collapses, for these five patterns, to
the maximal-run conditions implemented below (checked against CPython's
`re.findall` on the boundary cases). -/

/-- True when a `\b` anchor holds between `prev` and a word character. -/
def boundaryBefore (prev : Option Char) : Bool :=
  match prev with
  | none => true
  | some c => ¬ isWordChar c

/-- True when a `\b` anchor holds between a word character and `rest`. -/
def boundaryAfter (rest : List Char) : Bool :=
  match rest with
  | [] => true
  | c :: _ => ¬ isWordChar c

/-- Matcher for `\d+[.,]\d+` (decimal numbers). -/
def matchDecimal (_prev : Option Char) (s : List Char) :
    Option (List Char × List Char) :=
  let p1 := s.span Char.isDigit
  if p1.1.isEmpty then none
  else
    match p1.2 with
    | sep :: r2 =>
      if sep = '.' ∨ sep = ',' then
        let p2 := r2.span Char.isDigit
        if p2.1.isEmpty then none
        else some (p1.1 ++ sep :: p2.1, p2.2)
      else none
    | [] => none

/-- Matcher for `\d+\s*%` (percentages). -/
def matchPercent (_prev : Option Char) (s : List Char) :
    Option (List Char × List Char) :=
  let p1 := s.span Char.isDigit
  if p1.1.isEmpty then none
  else
    let p2 := p1.2.span pySpace
    match p2.2 with
    | c :: r3 => if c = '%' then some (p1.1 ++ p2.1 ++ ['%'], r3) else none
    | [] => none

/-- Matcher for dates: one or two digits, a slash-or-dash separator, one or
two digits, a slash-or-dash separator, two to four digits, surrounded by
word boundaries (the source pattern, with S standing for the class holding
slash and dash, reads `\b\d{1,2}S\d{1,2}S\d{2,4}\b`). -/
def matchDate (prev : Option Char) (s : List Char) :
    Option (List Char × List Char) :=
  if boundaryBefore prev then
    let p1 := s.span Char.isDigit
    if p1.1.length = 0 ∨ 2 < p1.1.length then none
    else
      match p1.2 with
      | s1 :: r2 =>
        if s1 = '/' ∨ s1 = '-' then
          let p2 := r2.span Char.isDigit
          if p2.1.length = 0 ∨ 2 < p2.1.length then none
          else
            match p2.2 with
            | s2 :: r4 =>
              if s2 = '/' ∨ s2 = '-' then
                let p3 := r4.span Char.isDigit
                if p3.1.length < 2 ∨ 4 < p3.1.length then none
                else if boundaryAfter p3.2 then
                  some (p1.1 ++ s1 :: (p2.1 ++ s2 :: p3.1), p3.2)
                else none
              else none
            | [] => none
        else none
      | [] => none
  else none

/-- Matcher for `\b\d+\b` (bare integers). -/
def matchInteger (prev : Option Char) (s : List Char) :
    Option (List Char × List Char) :=
  if boundaryBefore prev then
    let p := s.span Char.isDigit
    if p.1.isEmpty then none
    else if boundaryAfter p.2 then some (p.1, p.2) else none
  else none

/-- Matcher for `\b[A-Z]{2,}\b` (acronyms of length at least two). -/
def matchAcronym (prev : Option Char) (s : List Char) :
    Option (List Char × List Char) :=
  if boundaryBefore prev then
    let p := s.span isUpperAZ
    if p.1.length < 2 then none
    else if boundaryAfter p.2 then some (p.1, p.2) else none
  else none

/-- The character remembered as `prev` after consuming `tok` (which was
matched starting at a position whose first character is `c`). -/
def lastOf (tok : List Char) (c : Char) : Option Char :=
  match tok.getLast? with
  | some a => some a
  | none => some c

/-- Scanner behind `reFindAll`, structurally recursive on a fuel argument
so that the kernel can evaluate it; the fuel is the length of the text,
which suffices because every step consumes at least one character.  The
guard `rest.length < cs.length + 1` always holds for the matchers above
(they consume at least one character); it only keeps the fuel sufficient. -/
def reFindAllAux (m : Option Char → List Char → Option (List Char × List Char)) :
    Nat → Option Char → List Char → List (List Char)
  | 0, _, _ => []
  | _, _, [] => []
  | fuel + 1, prev, c :: cs =>
    match m prev (c :: cs) with
    | some (tok, rest) =>
      if rest.length < cs.length + 1 then
        tok :: reFindAllAux m fuel (lastOf tok c) rest
      else
        reFindAllAux m fuel (some c) cs
    | none => reFindAllAux m fuel (some c) cs

/-- Model of `re.findall pattern text`: scan left to right; on a match,
report it and continue after it; otherwise advance one character. -/
def reFindAll (m : Option Char → List Char → Option (List Char × List Char))
    (prev : Option Char) (s : List Char) : List (List Char) :=
  reFindAllAux m s.length prev s

/-! ## `src/core/word_counter.py` -/

namespace WordCounter

/-- `WordCounter.count`: number of whitespace-separated tokens.  The
source's early return for empty or whitespace-only text is subsumed:
`pySplit` already yields `[]` there. -/
def count (text : String) : Nat :=
  (pySplit text.data).length

/-- The four `CRITICAL_TOKENS_PATTERNS`: decimals, percentages, dates,
acronyms. -/
def criticalMatchers :
    List (Option Char → List Char → Option (List Char × List Char)) :=
  [matchDecimal, matchPercent, matchDate, matchAcronym]

/-- `WordCounter.extract_critical_tokens`: union of the matches of the four
critical-token patterns, duplicates collapsed.  The source accumulates into
a Python `set` and returns `list(...)`, whose order is not significant;
here the first-occurrence order is fixed by `List.dedup`. -/
def extract_critical_tokens (text : String) : List (List Char) :=
  (criticalMatchers.flatMap (fun m => reFindAll m none text.data)).dedup

end WordCounter

/-! ## `src/core/validators/hard_rules.py` -/

namespace HardRulesValidator

/-- The four numeric-preservation patterns of `_check_numeric_preservation`:
decimals, percentages, dates, bare integers. -/
def numericMatchers :
    List (Option Char → List Char → Option (List Char × List Char)) :=
  [matchDecimal, matchPercent, matchDate, matchInteger]

/-- `HardRulesValidator._check_numeric_preservation`: for each pattern, the
set of matches of the original must be a subset of the set of matches of
the rewritten text. -/
def check_numeric_preservation (original rewritten : String) : Bool :=
  numericMatchers.all fun m =>
    (reFindAll m none original.data).all fun x =>
      (reFindAll m none rewritten.data).contains x

/-- `HardRulesValidator._check_critical_tokens`: every critical token must
occur as a substring of the rewritten text (Python's `token in rewritten`). -/
def check_critical_tokens (rewritten : String)
    (critical_tokens : List (List Char)) : Bool :=
  critical_tokens.all fun tok => strContains rewritten.data tok

/-- The stop-word set of `_check_no_new_facts` (the source set literal
repeats `'es'`, which a Python set collapses). -/
def stop_words : List (List Char) :=
  (["el", "la", "los", "las", "un", "una", "unos", "unas",
    "de", "del", "a", "al", "en", "con", "sin", "por", "para",
    "y", "o", "pero", "que", "es", "está", "son"]).map String.data

/-- The set of substantial words of a text: lower-cased whitespace tokens
that are not stop words (a Python `set`, so duplicates are collapsed). -/
def substantialWords (text : String) : List (List Char) :=
  (((pySplit text.data).map fun w => w.map Char.toLower).filter
    fun w => !(stop_words.contains w)).dedup

/-- `new_words = rewritten_words - original_words`: the distinct substantial
words of the rewritten text that do not occur among the original's. -/
def newWords (original rewritten : String) : List (List Char) :=
  (substantialWords rewritten).filter
    fun w => !((substantialWords original).contains w)

/-- `HardRulesValidator._check_no_new_facts`: reject when the number of new
substantial words exceeds 0.4 times the number of the original's
substantial words.  The float comparison
`len(new_words) > len(original_words) * 0.4` is modelled exactly over `ℚ`
(`mkRat 2 5 = 0.4`); on list lengths the two agree. -/
def check_no_new_facts (original rewritten : String) : Bool :=
  if ((newWords original rewritten).length : ℚ) >
      ((substantialWords original).length : ℚ) * mkRat 2 5 then false
  else true

/-- `HardRulesValidator.validate`: the three ordered checks, short-circuiting
on the first failure; the critical-token check only runs when the token list
is non-empty (Python's `if critical_tokens:`). -/
def validate (original_text rewritten_text : String)
    (critical_tokens : List (List Char)) : Bool × String :=
  if ¬ check_numeric_preservation original_text rewritten_text then
    (false, "Números, fechas o porcentajes no fueron preservados")
  else if ¬ critical_tokens.isEmpty ∧
      ¬ check_critical_tokens rewritten_text critical_tokens then
    (false, "No se preservaron todos los tokens críticos")
  else if ¬ check_no_new_facts original_text rewritten_text then
    (false, "Se detectaron hechos o información nueva")
  else
    (true, "")

end HardRulesValidator

/-! ## `src/models/dto.py` -/

/-- `Mode` (a closed enumeration in the source, values `strict`/`balanced`). -/
inductive Mode where
  | STRICT
  | BALANCED
deriving DecidableEq

/-- `AttemptStatus`. -/
inductive AttemptStatus where
  | OUT_OF_RANGE
  | IN_RANGE_PENDING_VALIDATION
  | REJECTED_BY_HARD_RULES
  | REJECTED_BY_SEMANTIC_SIMILARITY
  | ACCEPTED
deriving DecidableEq

/-- `TokenMetrics` (per-call usage); `cost_usd` is a Python float, modelled
as an exact rational. -/
structure TokenMetrics where
  input_tokens : Nat := 0
  cached_tokens : Nat := 0
  output_tokens : Nat := 0
  cost_usd : ℚ := 0
  model : String := ""
deriving DecidableEq

/-- `InputRequest`. -/
structure InputRequest where
  input_text : String
  min_words : Int
  max_words : Int
  model : String := "gpt-4o-mini"
  mode : Mode := Mode.BALANCED
  max_attempts : Int := 5
  session_id : Option String := none
deriving DecidableEq

/-- `AttemptRecord`; optional fields default exactly as in the dataclass. -/
structure AttemptRecord where
  attempt_number : Nat
  proposed_text : String
  word_count : Nat
  status : AttemptStatus
  delta : Int := 0
  similarity_score : Option ℚ := none
  hard_rules_passed : Bool := true
  error_message : Option String := none
  token_metrics : Option TokenMetrics := none
deriving DecidableEq

/-- `OutputResult`; optional fields default exactly as in the dataclass. -/
structure OutputResult where
  original_text : String
  original_word_count : Nat
  final_text : String
  final_word_count : Nat
  status : String
  total_attempts : Int
  attempts : List AttemptRecord := []
  validation_reason : String := ""
  target_words : Option Int := none
  mode : Mode := Mode.BALANCED
  session_id : Option String := none
  error : Option String := none
  model : String := "gpt-4o-mini"
  total_token_metrics : Option TokenMetrics := none
  total_cost_usd : ℚ := 0
deriving DecidableEq

/-! ## Python `round(x, n)` on rationals

Python's `round` rounds half to even.  It acts on binary floats; on the
rational values reached by this program the exact-rational version below
coincides.  `mkRat` keeps every operation kernel-reducible. -/

/-- Round a rational to the nearest integer, ties to even. -/
def pyRoundHalfToEven (x : ℚ) : ℤ :=
  let f := x.num.fdiv (x.den : ℤ)
  let r := x - (f : ℚ)
  if r < mkRat 1 2 then f
  else if mkRat 1 2 < r then f + 1
  else if f % 2 = 0 then f else f + 1

/-- Model of Python `round(x, 6)`. -/
def pyRound6 (x : ℚ) : ℚ :=
  mkRat (pyRoundHalfToEven (x * mkRat 1000000 1)) 1000000

/-- Model of Python `round(x, 4)`. -/
def pyRound4 (x : ℚ) : ℚ :=
  mkRat (pyRoundHalfToEven (x * mkRat 10000 1)) 10000

/-! ## `src/core/validators/semantic.py`

The embedding collaborator (`LLMClient.get_embedding`) is injected as a
function returning `Except`: an `error` value models the exceptions the
source catches with `try/except`.  Embedding vectors are lists of real
numbers (Python floats). -/

/-- The slice of `LLMClient` the semantic validator uses. -/
structure EmbedClient where
  get_embedding : String → Except String (List ℝ × Option TokenMetrics)

namespace SemanticValidator

open Classical

/-- `sum(a * b for a, b in zip(vec1, vec2))`. -/
def dot_product (vec1 vec2 : List ℝ) : ℝ :=
  ((vec1.zip vec2).map fun p => p.1 * p.2).sum

/-- `math.sqrt(sum(a ** 2 for a in vec))`. -/
noncomputable def vecNorm (vec : List ℝ) : ℝ :=
  Real.sqrt ((vec.map fun a => a ^ 2).sum)

/-- `SemanticValidator._cosine_similarity`; `none` models the `ValueError`
raised on a length mismatch, which the caller's `try/except` turns into a
fail-open pass. -/
noncomputable def cosine_similarity (vec1 vec2 : List ℝ) : Option ℝ :=
  if vec1.length ≠ vec2.length then none
  else
    let dp := dot_product vec1 vec2
    let norm1 := vecNorm vec1
    let norm2 := vecNorm vec2
    if norm1 = 0 ∨ norm2 = 0 then some 0
    else some (dp / (norm1 * norm2))

/-- `SemanticValidator.validate`: fail-open without a collaborator
(similarity 1.0) and on any failure inside the `try` block (similarity
0.0); otherwise pass iff the cosine similarity reaches the threshold.  The
numeric interpolation of the failure message is abstracted to its fixed
prefix. -/
noncomputable def validate (llm_client : Option EmbedClient)
    (original_text rewritten_text : String) (threshold : ℝ) :
    Bool × ℝ × String :=
  match llm_client with
  | none => (true, 1, "")
  | some client =>
    match client.get_embedding original_text with
    | .error _ => (true, 0, "")
    | .ok original_embedding =>
      match client.get_embedding rewritten_text with
      | .error _ => (true, 0, "")
      | .ok rewritten_embedding =>
        match cosine_similarity original_embedding.1 rewritten_embedding.1 with
        | none => (true, 0, "")
        | some similarity =>
          if threshold ≤ similarity then (true, similarity, "")
          else (false, similarity, "Similitud semántica baja")

end SemanticValidator

/-! ## `src/core/rewrite_orchestrator.py`

The two injected collaborators of the orchestrator are modelled as they are
injected in the constructor: the rewriting collaborator as a function
returning `Except` (an `error` value models the exception caught at the
call site), and the semantic validator as a function with the same
interface as `SemanticValidator.validate`, producing rational similarity
scores so that concrete runs stay decidable.  The hard-rules validator is
the concrete default (`HardRulesValidator.validate`), as in the production
wiring.  The model-swapping assignment on the shared client handle (source
lines 103–105) has no observable effect in a single synchronous run and is
not modelled. -/

/-- The slice of `LLMClient` the orchestrator uses: `rewrite_text` receives
text, min, max, target, mode, optional delta, optional critical tokens and
the attempt number. -/
structure LLMClient where
  rewrite_text : String → Int → Int → Int → Mode → Option Int →
    Option (List (List Char)) → Nat → Except String (String × Option TokenMetrics)

/-- Interface of the injected semantic validator. -/
def SemFn : Type :=
  String → String → ℚ → Bool × ℚ × String

namespace RewriteOrchestrator

/-- `RewriteOrchestrator._validate_request`. -/
def validate_request (request : InputRequest) : Bool :=
  if request.input_text.isEmpty then false
  else if request.min_words < 1 ∨ request.max_words < request.min_words then false
  else if request.max_attempts < 1 then false
  else true

/-- `RewriteOrchestrator._calculate_target_words`. -/
def calculate_target_words (original_count : Nat) (min_words max_words : Int) : Int :=
  if (original_count : Int) < min_words then min_words
  else if max_words < (original_count : Int) then max_words
  else (original_count : Int)

/-- `RewriteOrchestrator._calculate_total_cost`: sum of the attempts' costs
(skipping absent usage and — by Python float truthiness — zero costs, which
does not change the sum), rounded to four decimals. -/
def calculate_total_cost (attempts : List AttemptRecord) : ℚ :=
  pyRound4 (attempts.foldl (fun total_cost attempt =>
    match attempt.token_metrics with
    | some tm => if tm.cost_usd ≠ 0 then total_cost + tm.cost_usd else total_cost
    | none => total_cost) 0)

/-- Accumulator of `_calculate_total_token_metrics`. -/
structure MetricsAcc where
  total_input : Nat
  total_cached : Nat
  total_output : Nat
  total_cost : ℚ
  model : String
deriving DecidableEq

/-- One iteration of the loop in `_calculate_total_token_metrics`. -/
def metricsStep (acc : MetricsAcc) (attempt : AttemptRecord) : MetricsAcc :=
  match attempt.token_metrics with
  | some tm =>
    { total_input := acc.total_input + tm.input_tokens
      total_cached := acc.total_cached + tm.cached_tokens
      total_output := acc.total_output + tm.output_tokens
      total_cost := acc.total_cost + tm.cost_usd
      model := if acc.model.isEmpty then tm.model else acc.model }
  | none => acc

/-- `RewriteOrchestrator._calculate_total_token_metrics`. -/
def calculate_total_token_metrics (attempts : List AttemptRecord) :
    Option TokenMetrics :=
  let acc := attempts.foldl metricsStep ⟨0, 0, 0, 0, ""⟩
  if acc.total_input = 0 ∧ acc.total_output = 0 then none
  else some
    { input_tokens := acc.total_input
      cached_tokens := acc.total_cached
      output_tokens := acc.total_output
      cost_usd := pyRound6 acc.total_cost
      model := acc.model }

/-- The mode-dependent semantic threshold of `orchestrate` (source lines
148–151): 0.85 when STRICT, 0.75 otherwise. -/
def semanticThreshold (mode : Mode) : ℚ :=
  if mode = Mode.STRICT then mkRat 17 20 else mkRat 3 4

/-- `session_id = request.session_id or "unknown"` (Python truthiness). -/
def sessionIdOf (request : InputRequest) : String :=
  match request.session_id with
  | some s => if s.isEmpty then "unknown" else s
  | none => "unknown"

/-- Mutable state of the retry loop: the attempt log, the fallback
candidate (`best_candidate`, `None` initially) and the best similarity
seen among semantically rejected candidates (`best_similarity`, -1.0
initially). -/
structure LoopState where
  attempts : List AttemptRecord
  best_candidate : Option String
  best_similarity : ℚ
deriving DecidableEq

/-- The delta fed back to the collaborator (source lines 113–116):
defined from attempt 2 on, when a fallback exists and is truthy. -/
def attemptDelta (best_candidate : Option String) (target_words : Int)
    (attempt_num : Nat) : Option Int :=
  match best_candidate with
  | some b =>
    if 1 < attempt_num ∧ ¬ b.isEmpty then
      some ((WordCounter.count b : Int) - target_words)
    else none
  | none => none

/-- Outcome of one loop iteration: either the run terminates with an
accepted candidate, or the loop continues with an updated state. -/
inductive StepOut where
  | accepted : AttemptRecord → String → Nat → StepOut
  | next : LoopState → StepOut
deriving DecidableEq

/-- One iteration of the retry loop of `orchestrate` (source lines
107–226): call the collaborator, record exactly one attempt, update the
fallback according to the branch taken. -/
def attemptStep (client : LLMClient) (sem : SemFn) (request : InputRequest)
    (critical_tokens : List (List Char)) (target_words : Int)
    (attempt_num : Nat) (st : LoopState) : StepOut :=
  match client.rewrite_text request.input_text request.min_words
      request.max_words target_words request.mode
      (attemptDelta st.best_candidate target_words attempt_num)
      (if attempt_num = 1 then some critical_tokens else none)
      attempt_num with
  | .error e =>
    .next { st with attempts := st.attempts ++
      [{ attempt_number := attempt_num
         proposed_text := ""
         word_count := 0
         status := AttemptStatus.OUT_OF_RANGE
         error_message := some e
         token_metrics := none }] }
  | .ok (proposed_text, token_metrics) =>
    let proposed_count := WordCounter.count proposed_text
    let threshold := semanticThreshold request.mode
    let sv := sem request.input_text proposed_text threshold
    let semantic_valid := sv.1
    let similarity := sv.2.1
    let semantic_reason := sv.2.2
    let in_range := request.min_words ≤ (proposed_count : Int) ∧
      (proposed_count : Int) ≤ request.max_words
    let delta_actual := (proposed_count : Int) - target_words
    if ¬ in_range then
      .next
        { attempts := st.attempts ++
            [{ attempt_number := attempt_num
               proposed_text := proposed_text
               word_count := proposed_count
               status := AttemptStatus.OUT_OF_RANGE
               delta := delta_actual
               similarity_score := some similarity
               token_metrics := token_metrics }]
          best_candidate := some proposed_text
          best_similarity := st.best_similarity }
    else
      let hr := HardRulesValidator.validate request.input_text proposed_text
        critical_tokens
      if ¬ hr.1 then
        .next
          { attempts := st.attempts ++
              [{ attempt_number := attempt_num
                 proposed_text := proposed_text
                 word_count := proposed_count
                 status := AttemptStatus.REJECTED_BY_HARD_RULES
                 delta := delta_actual
                 hard_rules_passed := false
                 error_message := some hr.2
                 similarity_score := some similarity
                 token_metrics := token_metrics }]
            best_candidate := some proposed_text
            best_similarity := st.best_similarity }
      else if ¬ semantic_valid then
        .next
          { attempts := st.attempts ++
              [{ attempt_number := attempt_num
                 proposed_text := proposed_text
                 word_count := proposed_count
                 status := AttemptStatus.REJECTED_BY_SEMANTIC_SIMILARITY
                 delta := delta_actual
                 similarity_score := some similarity
                 error_message := some semantic_reason
                 token_metrics := token_metrics }]
            best_candidate :=
              if st.best_similarity < similarity then some proposed_text
              else st.best_candidate
            best_similarity :=
              if st.best_similarity < similarity then similarity
              else st.best_similarity }
      else
        .accepted
          { attempt_number := attempt_num
            proposed_text := proposed_text
            word_count := proposed_count
            status := AttemptStatus.ACCEPTED
            delta := delta_actual
            similarity_score := some similarity
            token_metrics := token_metrics }
          proposed_text proposed_count

/-- The result built when the loop exhausts without acceptance (source
lines 250–284): the fallback when it is truthy, a terminal error
otherwise. -/
def exhaustResult (request : InputRequest) (original_count : Nat)
    (target_words : Int) (st : LoopState) : OutputResult :=
  let errorResult : OutputResult :=
    { original_text := request.input_text
      original_word_count := original_count
      final_text := ""
      final_word_count := 0
      status := "ERROR"
      total_attempts := request.max_attempts
      attempts := st.attempts
      mode := request.mode
      session_id := some (sessionIdOf request)
      model := request.model
      error := some "No se pudo generar propuestas válidas"
      total_token_metrics := calculate_total_token_metrics st.attempts
      total_cost_usd := calculate_total_cost st.attempts }
  match st.best_candidate with
  | some best_candidate =>
    if ¬ best_candidate.isEmpty then
      { original_text := request.input_text
        original_word_count := original_count
        final_text := best_candidate
        final_word_count := WordCounter.count best_candidate
        status := "REJECTED_NO_VALID_CANDIDATE"
        total_attempts := request.max_attempts
        attempts := st.attempts
        validation_reason := "No cumplió validaciones en los intentos realizados"
        target_words := some target_words
        mode := request.mode
        session_id := some (sessionIdOf request)
        model := request.model
        error := some "Se retorna mejor candidato por similitud"
        total_token_metrics := calculate_total_token_metrics st.attempts
        total_cost_usd := calculate_total_cost st.attempts }
    else errorResult
  | none => errorResult

/-- The retry loop of `orchestrate`, by recursion on the remaining number
of attempts (`for attempt_num in range(1, max_attempts + 1)` runs
`max_attempts` iterations). -/
def runAttempts (client : LLMClient) (sem : SemFn) (request : InputRequest)
    (original_count : Nat) (critical_tokens : List (List Char))
    (target_words : Int) : Nat → Nat → LoopState → OutputResult
  | 0, _, st => exhaustResult request original_count target_words st
  | fuel + 1, attempt_num, st =>
    match attemptStep client sem request critical_tokens target_words
        attempt_num st with
    | .accepted record proposed_text proposed_count =>
      { original_text := request.input_text
        original_word_count := original_count
        final_text := proposed_text
        final_word_count := proposed_count
        status := "ACCEPTED"
        total_attempts := (attempt_num : Int)
        attempts := st.attempts ++ [record]
        validation_reason := "Pasó todas las validaciones"
        target_words := some target_words
        mode := request.mode
        session_id := some (sessionIdOf request)
        model := request.model
        total_token_metrics :=
          calculate_total_token_metrics (st.attempts ++ [record])
        total_cost_usd := calculate_total_cost (st.attempts ++ [record]) }
    | .next st' =>
      runAttempts client sem request original_count critical_tokens
        target_words fuel (attempt_num + 1) st'

/-- `RewriteOrchestrator.orchestrate`. -/
def orchestrate (client : LLMClient) (sem : SemFn) (request : InputRequest) :
    OutputResult :=
  if ¬ validate_request request then
    { original_text := request.input_text
      original_word_count := 0
      final_text := ""
      final_word_count := 0
      status := "ERROR"
      total_attempts := 0
      error := some "Solicitud inválida" }
  else
    let original_count := WordCounter.count request.input_text
    if request.min_words ≤ (original_count : Int) ∧
        (original_count : Int) ≤ request.max_words then
      { original_text := request.input_text
        original_word_count := original_count
        final_text := request.input_text
        final_word_count := original_count
        status := "ACCEPTED"
        total_attempts := 0
        validation_reason := "Ya está dentro del rango" }
    else
      let critical_tokens := WordCounter.extract_critical_tokens request.input_text
      let target_words := calculate_target_words original_count
        request.min_words request.max_words
      runAttempts client sem request original_count critical_tokens
        target_words request.max_attempts.toNat 1 ⟨[], none, -1⟩

end RewriteOrchestrator

/-! ## Concrete collaborators used in witnesses and counterexamples -/

/-- A rewriting collaborator whose call always fails. -/
def failingClient : LLMClient :=
  ⟨fun _ _ _ _ _ _ _ _ => Except.error "API error"⟩

/-- A rewriting collaborator that always returns the empty string. -/
def emptyTextClient : LLMClient :=
  ⟨fun _ _ _ _ _ _ _ _ => Except.ok ("", none)⟩

/-- A semantic validator stub that always passes with similarity 1. -/
def passSem : SemFn :=
  fun _ _ _ => (true, 1, "")

/-! ## Claim C5 — invalid requests -/

/-- C5: for every invalid request — empty input text, or `min_words > max_words`
or `min_words < 1`, or `max_attempts < 1` — `orchestrate` returns immediately
with status ERROR and `total_attempts = 0`, consuming no attempts. -/
theorem c5_invalid_request_errors (client : LLMClient) (sem : SemFn)
    (request : InputRequest)
    (h : request.input_text = "" ∨ request.min_words < 1 ∨
      request.max_words < request.min_words ∨ request.max_attempts < 1) :
    (RewriteOrchestrator.orchestrate client sem request).status = "ERROR" ∧
    (RewriteOrchestrator.orchestrate client sem request).total_attempts = 0 := by
  have hv : RewriteOrchestrator.validate_request request = false := by
    unfold RewriteOrchestrator.validate_request
    split_ifs <;> simp_all [String.isEmpty_iff]
  unfold RewriteOrchestrator.orchestrate
  rw [hv]
  simp

/-- Witness for C5 at a concrete invalid request (inverted range). -/
theorem c5_witness :
    (RewriteOrchestrator.orchestrate failingClient passSem
      { input_text := "Texto de ejemplo", min_words := 50, max_words := 10 }).status
      = "ERROR" ∧
    (RewriteOrchestrator.orchestrate failingClient passSem
      { input_text := "Texto de ejemplo", min_words := 50, max_words := 10 }).total_attempts
      = 0 :=
  c5_invalid_request_errors failingClient passSem
    { input_text := "Texto de ejemplo", min_words := 50, max_words := 10 }
    (Or.inr (Or.inr (Or.inl (by decide))))

/-! ## Claim C4 — input already in range -/

/-- Counterexample for C4 as stated: a request whose text is already within
`[min_words, max_words]` but whose `max_attempts` is 0 is rejected by request
validation — which runs before the in-range check — so the result is ERROR,
not ACCEPTED. -/
theorem c4_counterexample :
    (1 : Int) ≤ (WordCounter.count "a b c" : Int) ∧
    (WordCounter.count "a b c" : Int) ≤ 5 ∧
    (RewriteOrchestrator.orchestrate failingClient passSem
      { input_text := "a b c", min_words := 1, max_words := 5,
        max_attempts := 0 }).status = "ERROR" ∧
    (RewriteOrchestrator.orchestrate failingClient passSem
      { input_text := "a b c", min_words := 1, max_words := 5,
        max_attempts := 0 }).status ≠ "ACCEPTED" := by
  refine ⟨by decide, by decide, ?_, ?_⟩ <;> with_unfolding_all decide

/-- C4 (amended): for every valid request whose input word count already lies
within `[min_words, max_words]`, `orchestrate` returns status ACCEPTED with
zero attempts and the unchanged input text. -/
theorem c4_in_range_accepted (client : LLMClient) (sem : SemFn)
    (request : InputRequest)
    (hv : RewriteOrchestrator.validate_request request = true)
    (hmin : request.min_words ≤ (WordCounter.count request.input_text : Int))
    (hmax : (WordCounter.count request.input_text : Int) ≤ request.max_words) :
    (RewriteOrchestrator.orchestrate client sem request).status = "ACCEPTED" ∧
    (RewriteOrchestrator.orchestrate client sem request).total_attempts = 0 ∧
    (RewriteOrchestrator.orchestrate client sem request).final_text
      = request.input_text := by
  unfold RewriteOrchestrator.orchestrate
  rw [hv]
  simp [hmin, hmax]

/-- Witness for C4 (amended) at a concrete request whose ten-word text lies
within the requested range. -/
theorem c4_witness :
    (RewriteOrchestrator.orchestrate failingClient passSem
      { input_text := "Este es un texto con diez palabras exactamente dentro rango",
        min_words := 5, max_words := 15, max_attempts := 3 }).status = "ACCEPTED" ∧
    (RewriteOrchestrator.orchestrate failingClient passSem
      { input_text := "Este es un texto con diez palabras exactamente dentro rango",
        min_words := 5, max_words := 15, max_attempts := 3 }).total_attempts = 0 ∧
    (RewriteOrchestrator.orchestrate failingClient passSem
      { input_text := "Este es un texto con diez palabras exactamente dentro rango",
        min_words := 5, max_words := 15, max_attempts := 3 }).final_text
      = "Este es un texto con diez palabras exactamente dentro rango" :=
  c4_in_range_accepted failingClient passSem
    { input_text := "Este es un texto con diez palabras exactamente dentro rango",
      min_words := 5, max_words := 15, max_attempts := 3 }
    (by decide) (by decide) (by decide)

/-! ## Claim C3 — aggregated usage metrics

The spec-side quantities the aggregate is compared against: the usage
records of the attempts in order, their component-wise sums, and the first
non-empty model id among them. -/

/-- The usage records carried by the attempts, in attempt order. -/
def usageOf (attempts : List AttemptRecord) : List TokenMetrics :=
  attempts.filterMap fun r => r.token_metrics

/-- Sum of the input-token counts over all recorded usage. -/
def specSumInput (attempts : List AttemptRecord) : Nat :=
  ((usageOf attempts).map fun tm => tm.input_tokens).sum

/-- Sum of the cached-token counts over all recorded usage. -/
def specSumCached (attempts : List AttemptRecord) : Nat :=
  ((usageOf attempts).map fun tm => tm.cached_tokens).sum

/-- Sum of the output-token counts over all recorded usage. -/
def specSumOutput (attempts : List AttemptRecord) : Nat :=
  ((usageOf attempts).map fun tm => tm.output_tokens).sum

/-- Sum of the costs over all recorded usage. -/
def specSumCost (attempts : List AttemptRecord) : ℚ :=
  ((usageOf attempts).map fun tm => tm.cost_usd).sum

/-- Modelled from the spec: the first non-empty model id encountered in
attempt order (empty when there is none). -/
def specFirstModel : List TokenMetrics → String
  | [] => ""
  | tm :: rest => if tm.model.isEmpty then specFirstModel rest else tm.model

/-- Closed form of the accumulating loop of
`_calculate_total_token_metrics`. -/
theorem foldl_metricsStep (l : List AttemptRecord)
    (acc : RewriteOrchestrator.MetricsAcc) :
    l.foldl RewriteOrchestrator.metricsStep acc =
      ⟨acc.total_input + specSumInput l,
       acc.total_cached + specSumCached l,
       acc.total_output + specSumOutput l,
       acc.total_cost + specSumCost l,
       if acc.model.isEmpty then specFirstModel (usageOf l) else acc.model⟩ := by
  induction l generalizing acc with
  | nil =>
    simp only [List.foldl_nil, specSumInput, specSumCached, specSumOutput,
      specSumCost, usageOf, List.filterMap_nil, List.map_nil, List.sum_nil,
      Nat.add_zero, add_zero, specFirstModel]
    cases acc with
    | mk i c o q m =>
      simp only [RewriteOrchestrator.MetricsAcc.mk.injEq, true_and]
      split_ifs with h
      · exact (String.isEmpty_iff _).mp h
      · rfl
  | cons r l ih =>
    rcases htm : r.token_metrics with _ | tm
    · have hu : usageOf (r :: l) = usageOf l := by simp [usageOf, htm]
      simp [List.foldl_cons, RewriteOrchestrator.metricsStep, htm, ih,
        specSumInput, specSumCached, specSumOutput, specSumCost, hu]
    · have hu : usageOf (r :: l) = tm :: usageOf l := by simp [usageOf, htm]
      rw [List.foldl_cons]
      have hstep : RewriteOrchestrator.metricsStep acc r =
          ⟨acc.total_input + tm.input_tokens, acc.total_cached + tm.cached_tokens,
           acc.total_output + tm.output_tokens, acc.total_cost + tm.cost_usd,
           if acc.model.isEmpty then tm.model else acc.model⟩ := by
        simp [RewriteOrchestrator.metricsStep, htm]
      rw [hstep, ih]
      simp only [specSumInput, specSumCached, specSumOutput, specSumCost, hu,
        List.map_cons, List.sum_cons, RewriteOrchestrator.MetricsAcc.mk.injEq,
        specFirstModel]
      refine ⟨by omega, by omega, by omega, by ring, ?_⟩
      split_ifs <;> simp_all

/-- Counterexample for C3 as stated: one attempt carrying usage whose token
counts are all zero (with a non-zero cost and a model id) yields aggregate
`none`, although an attempt did carry usage. -/
theorem c3_counterexample :
    RewriteOrchestrator.calculate_total_token_metrics
      [{ attempt_number := 1, proposed_text := "x", word_count := 1,
         status := AttemptStatus.OUT_OF_RANGE,
         token_metrics := some { cost_usd := mkRat 1 2, model := "gpt-4o-mini" } }]
      = none ∧
    ([{ attempt_number := 1, proposed_text := "x", word_count := 1,
        status := AttemptStatus.OUT_OF_RANGE,
        token_metrics := some { cost_usd := mkRat 1 2, model := "gpt-4o-mini" } }]
      : List AttemptRecord).filterMap (fun r => r.token_metrics) ≠ [] := by
  constructor <;> with_unfolding_all decide

/-- C3 (amended): the aggregate sums input, cached and output token counts
and cost over all recorded attempts' usage, and its model id is the first
non-empty model id in attempt order; however the aggregate is `None`
exactly when the summed input tokens and the summed output tokens are both
zero — in particular when no attempt carried usage, but also when usage was
reported with all-zero input and output counts. -/
theorem c3_total_token_metrics (attempts : List AttemptRecord) :
    (RewriteOrchestrator.calculate_total_token_metrics attempts = none ↔
      specSumInput attempts = 0 ∧ specSumOutput attempts = 0) ∧
    (∀ m, RewriteOrchestrator.calculate_total_token_metrics attempts = some m →
      m.input_tokens = specSumInput attempts ∧
      m.cached_tokens = specSumCached attempts ∧
      m.output_tokens = specSumOutput attempts ∧
      m.cost_usd = pyRound6 (specSumCost attempts) ∧
      m.model = specFirstModel (usageOf attempts)) := by
  unfold RewriteOrchestrator.calculate_total_token_metrics
  rw [foldl_metricsStep]
  simp only [Nat.zero_add, zero_add,
    show ("" : String).isEmpty = true from rfl, if_true]
  by_cases h : specSumInput attempts = 0 ∧ specSumOutput attempts = 0
  · rw [if_pos h]
    exact ⟨by simp [h], fun m hm => by simp at hm⟩
  · rw [if_neg h]
    refine ⟨by simp [h], fun m hm => ?_⟩
    simp only [Option.some.injEq] at hm
    subst hm
    simp

/-- The attempt log of the spec's aggregation example: usage (100, 50),
usage (80, 40), and a failed call carrying no usage. -/
def demoAttempts : List AttemptRecord :=
  [{ attempt_number := 1, proposed_text := "a", word_count := 1,
     status := AttemptStatus.OUT_OF_RANGE,
     token_metrics :=
       some { input_tokens := 100, output_tokens := 50, model := "gpt-4o-mini" } },
   { attempt_number := 2, proposed_text := "b", word_count := 1,
     status := AttemptStatus.OUT_OF_RANGE,
     token_metrics :=
       some { input_tokens := 80, output_tokens := 40, model := "gpt-4o" } },
   { attempt_number := 3, proposed_text := "", word_count := 0,
     status := AttemptStatus.OUT_OF_RANGE,
     error_message := some "API error" }]

/-- The aggregate the example is expected to produce: (180, 90), model id
from the first attempt that reported one. -/
def demoMetrics : TokenMetrics :=
  { input_tokens := 180, cached_tokens := 0, output_tokens := 90,
    cost_usd := pyRound6 0, model := "gpt-4o-mini" }

/-- Witness for C3 (amended): the example log aggregates to `demoMetrics`,
whose components coincide with the spec-side sums and first model id. -/
theorem c3_witness :
    RewriteOrchestrator.calculate_total_token_metrics demoAttempts
      = some demoMetrics ∧
    demoMetrics.input_tokens = specSumInput demoAttempts ∧
    demoMetrics.output_tokens = specSumOutput demoAttempts ∧
    demoMetrics.model = specFirstModel (usageOf demoAttempts) := by
  have hsome : RewriteOrchestrator.calculate_total_token_metrics demoAttempts
      = some demoMetrics := by
    with_unfolding_all decide
  have h := (c3_total_token_metrics demoAttempts).2 demoMetrics hsome
  exact ⟨hsome, h.1, h.2.2.1, h.2.2.2.2⟩

/-! ## Claims C7 and C8 — semantic validator and cosine similarity -/

/-- The dot product of a vector with itself is its sum of squares. -/
theorem dot_product_self (v : List ℝ) :
    SemanticValidator.dot_product v v = (v.map fun a => a ^ 2).sum := by
  induction v with
  | nil => simp [SemanticValidator.dot_product]
  | cons a v ih =>
    simp only [SemanticValidator.dot_product, List.zip_cons_cons,
      List.map_cons, List.sum_cons] at ih ⊢
    rw [ih]
    ring

/-- A sum of squares of reals is non-negative. -/
theorem sumSq_nonneg (v : List ℝ) : 0 ≤ (v.map fun a => a ^ 2).sum := by
  apply List.sum_nonneg
  intro x hx
  simp only [List.mem_map] at hx
  obtain ⟨a, _, rfl⟩ := hx
  positivity

/-- C8: over equal-length vectors, cosine similarity of a non-zero vector
with itself is 1; vectors with zero dot product (in particular orthogonal
ones) give 0; and a zero-norm vector on either side gives 0 — in each case
an actual value is returned, so no division error occurs. -/
theorem c8_cosine_similarity :
    (∀ v : List ℝ, SemanticValidator.vecNorm v ≠ 0 →
      SemanticValidator.cosine_similarity v v = some 1) ∧
    (∀ v w : List ℝ, v.length = w.length →
      SemanticValidator.dot_product v w = 0 →
      SemanticValidator.cosine_similarity v w = some 0) ∧
    (∀ v w : List ℝ, v.length = w.length →
      (SemanticValidator.vecNorm v = 0 ∨ SemanticValidator.vecNorm w = 0) →
      SemanticValidator.cosine_similarity v w = some 0) := by
  refine ⟨fun v h => ?_, fun v w hlen hdot => ?_, fun v w hlen hnorm => ?_⟩
  · have hS : (v.map fun a => a ^ 2).sum ≠ 0 := by
      intro h0
      exact h (by simp [SemanticValidator.vecNorm, h0])
    unfold SemanticValidator.cosine_similarity
    rw [if_neg (by simp), if_neg (by tauto)]
    rw [dot_product_self]
    have : SemanticValidator.vecNorm v * SemanticValidator.vecNorm v
        = (v.map fun a => a ^ 2).sum := by
      simpa [SemanticValidator.vecNorm] using
        Real.mul_self_sqrt (sumSq_nonneg v)
    rw [this, div_self hS]
  · unfold SemanticValidator.cosine_similarity
    rw [if_neg (by simp [hlen])]
    dsimp only
    split_ifs
    · rfl
    · rw [hdot, zero_div]
  · unfold SemanticValidator.cosine_similarity
    rw [if_neg (by simp [hlen])]
    dsimp only
    rw [if_pos hnorm]

/-- Witness for C8 at concrete vectors: (1, 1) with itself, the orthogonal
pair (1, 0) and (0, 1), and the zero vector against (3, 4). -/
theorem c8_witness :
    SemanticValidator.cosine_similarity [(1 : ℝ), 1] [(1 : ℝ), 1] = some 1 ∧
    SemanticValidator.cosine_similarity [(1 : ℝ), 0] [(0 : ℝ), 1] = some 0 ∧
    SemanticValidator.cosine_similarity [(0 : ℝ), 0] [(3 : ℝ), 4] = some 0 := by
  refine ⟨c8_cosine_similarity.1 [1, 1] ?_, ?_, ?_⟩
  · simp only [SemanticValidator.vecNorm, List.map_cons, List.map_nil,
      List.sum_cons, List.sum_nil]
    norm_num [Real.sqrt_eq_zero']
  · exact c8_cosine_similarity.2.1 [1, 0] [0, 1] (by simp)
      (by norm_num [SemanticValidator.dot_product])
  · refine c8_cosine_similarity.2.2 [0, 0] [3, 4] (by simp) (Or.inl ?_)
    simp [SemanticValidator.vecNorm]

/-- A concrete embedding collaborator whose call always fails. -/
def failingEmbed : EmbedClient :=
  ⟨fun _ => Except.error "embedding API error"⟩

/-- C7: the semantic validator fails open — with no collaborator it passes
with similarity 1; when an embedding call fails it passes with similarity 0;
otherwise it passes exactly when the cosine similarity reaches the
threshold; and the orchestrator supplies threshold 0.85 in STRICT mode and
0.75 in BALANCED mode. -/
theorem c7_semantic_fail_open :
    (∀ o c th, SemanticValidator.validate none o c th = (true, 1, "")) ∧
    (∀ (client : EmbedClient) o c th e,
      client.get_embedding o = Except.error e →
      SemanticValidator.validate (some client) o c th = (true, 0, "")) ∧
    (∀ (client : EmbedClient) o c th v e,
      client.get_embedding o = Except.ok v →
      client.get_embedding c = Except.error e →
      SemanticValidator.validate (some client) o c th = (true, 0, "")) ∧
    (∀ (client : EmbedClient) o c th v w s,
      client.get_embedding o = Except.ok v →
      client.get_embedding c = Except.ok w →
      SemanticValidator.cosine_similarity v.1 w.1 = some s →
      ((SemanticValidator.validate (some client) o c th).1 = true ↔ th ≤ s) ∧
      (SemanticValidator.validate (some client) o c th).2.1 = s) ∧
    RewriteOrchestrator.semanticThreshold Mode.STRICT = 0.85 ∧
    RewriteOrchestrator.semanticThreshold Mode.BALANCED = 0.75 := by
  refine ⟨fun o c th => rfl,
    fun client o c th e h => ?_,
    fun client o c th v e h1 h2 => ?_,
    fun client o c th v w s h1 h2 hcos => ?_, ?_, ?_⟩
  · simp only [SemanticValidator.validate, h]
  · simp only [SemanticValidator.validate, h1, h2]
  · simp only [SemanticValidator.validate, h1, h2, hcos]
    constructor
    · split_ifs with hth <;> simp [hth]
    · split_ifs <;> rfl
  · show mkRat 17 20 = 0.85
    rw [Rat.mkRat_eq_div]
    norm_num
  · show mkRat 3 4 = 0.75
    rw [Rat.mkRat_eq_div]
    norm_num

/-- Witness for C7: the fail-open outcomes at concrete inputs, through the
theorem, with its hypotheses discharged on the always-failing collaborator. -/
theorem c7_witness :
    SemanticValidator.validate none "hola" "mundo" (1 / 2) = (true, 1, "") ∧
    SemanticValidator.validate (some failingEmbed) "hola" "mundo" (1 / 2)
      = (true, 0, "") ∧
    RewriteOrchestrator.semanticThreshold Mode.BALANCED = 0.75 :=
  ⟨c7_semantic_fail_open.1 "hola" "mundo" (1 / 2),
   c7_semantic_fail_open.2.1 failingEmbed "hola" "mundo" (1 / 2)
     "embedding API error" rfl,
   c7_semantic_fail_open.2.2.2.2.2⟩

/-! ## Claims C6 and C10 — matcher consumption and substring facts -/

/-- A matcher consumes a prefix of its input: on success the input splits
as the reported match followed by the rest. -/
def MatcherConsumes
    (m : Option Char → List Char → Option (List Char × List Char)) : Prop :=
  ∀ prev s tok rest, m prev s = some (tok, rest) → s = tok ++ rest

theorem matchDecimal_consumes : MatcherConsumes matchDecimal := by
  intro prev s tok rest h
  unfold matchDecimal at h
  simp only [List.span_eq_take_drop] at h
  split_ifs at h with h1
  rcases hd : List.dropWhile Char.isDigit s with _ | ⟨sep, r2⟩ <;> rw [hd] at h
  · simp at h
  · dsimp only at h
    split_ifs at h with h2 h3
    simp only [Option.some.injEq, Prod.mk.injEq] at h
    obtain ⟨rfl, rfl⟩ := h
    calc s = List.takeWhile Char.isDigit s ++ List.dropWhile Char.isDigit s :=
          (List.takeWhile_append_dropWhile _ _).symm
      _ = List.takeWhile Char.isDigit s ++ (sep :: r2) := by rw [hd]
      _ = List.takeWhile Char.isDigit s ++
          (sep :: (List.takeWhile Char.isDigit r2 ++
            List.dropWhile Char.isDigit r2)) := by
          rw [List.takeWhile_append_dropWhile]
      _ = (List.takeWhile Char.isDigit s ++ sep :: List.takeWhile Char.isDigit r2)
          ++ List.dropWhile Char.isDigit r2 := by simp

theorem matchPercent_consumes : MatcherConsumes matchPercent := by
  intro prev s tok rest h
  unfold matchPercent at h
  simp only [List.span_eq_take_drop] at h
  split_ifs at h with h1
  rcases hd : List.dropWhile pySpace (List.dropWhile Char.isDigit s)
    with _ | ⟨c, r3⟩ <;> rw [hd] at h
  · simp at h
  · dsimp only at h
    split_ifs at h with h2
    simp only [Option.some.injEq, Prod.mk.injEq] at h
    obtain ⟨rfl, rfl⟩ := h
    subst h2
    conv_lhs => rw [← List.takeWhile_append_dropWhile Char.isDigit s,
      ← List.takeWhile_append_dropWhile pySpace (List.dropWhile Char.isDigit s)]
    rw [hd]
    simp

theorem matchDate_consumes : MatcherConsumes matchDate := by
  intro prev s tok rest h
  unfold matchDate at h
  simp only [List.span_eq_take_drop] at h
  split_ifs at h with h0 h1
  rcases hd1 : List.dropWhile Char.isDigit s with _ | ⟨s1, r2⟩ <;> rw [hd1] at h
  · simp at h
  · dsimp only at h
    split_ifs at h with h2 h3
    rcases hd2 : List.dropWhile Char.isDigit r2 with _ | ⟨s2, r4⟩ <;> rw [hd2] at h
    · simp at h
    · dsimp only at h
      split_ifs at h with h4 h5 h6
      simp only [Option.some.injEq, Prod.mk.injEq] at h
      obtain ⟨rfl, rfl⟩ := h
      calc s = List.takeWhile Char.isDigit s ++ List.dropWhile Char.isDigit s :=
            (List.takeWhile_append_dropWhile _ _).symm
        _ = List.takeWhile Char.isDigit s ++ (s1 :: r2) := by rw [hd1]
        _ = List.takeWhile Char.isDigit s ++ (s1 ::
            (List.takeWhile Char.isDigit r2 ++ List.dropWhile Char.isDigit r2)) := by
            rw [List.takeWhile_append_dropWhile]
        _ = List.takeWhile Char.isDigit s ++ (s1 ::
            (List.takeWhile Char.isDigit r2 ++ (s2 :: r4))) := by rw [hd2]
        _ = List.takeWhile Char.isDigit s ++ (s1 ::
            (List.takeWhile Char.isDigit r2 ++ (s2 ::
              (List.takeWhile Char.isDigit r4 ++
               List.dropWhile Char.isDigit r4)))) := by
            rw [List.takeWhile_append_dropWhile]
        _ = (List.takeWhile Char.isDigit s ++ s1 ::
            (List.takeWhile Char.isDigit r2 ++ s2 ::
              List.takeWhile Char.isDigit r4))
            ++ List.dropWhile Char.isDigit r4 := by simp

theorem matchAcronym_consumes : MatcherConsumes matchAcronym := by
  intro prev s tok rest h
  unfold matchAcronym at h
  simp only [List.span_eq_take_drop] at h
  split_ifs at h with h0 h1 h2
  simp only [Option.some.injEq, Prod.mk.injEq] at h
  obtain ⟨rfl, rfl⟩ := h
  exact (List.takeWhile_append_dropWhile _ _).symm

theorem matchInteger_consumes : MatcherConsumes matchInteger := by
  intro prev s tok rest h
  unfold matchInteger at h
  simp only [List.span_eq_take_drop] at h
  split_ifs at h with h0 h1 h2
  simp only [Option.some.injEq, Prod.mk.injEq] at h
  obtain ⟨rfl, rfl⟩ := h
  exact (List.takeWhile_append_dropWhile _ _).symm

/-- Every match reported by the scanner is a contiguous substring of the
scanned text, provided the matcher consumes a prefix. -/
theorem reFindAllAux_infix
    (m : Option Char → List Char → Option (List Char × List Char))
    (hm : MatcherConsumes m) :
    ∀ fuel prev s x, x ∈ reFindAllAux m fuel prev s → x <:+: s := by
  intro fuel
  induction fuel with
  | zero =>
    intro prev s x hx
    simp [reFindAllAux] at hx
  | succ f ih =>
    intro prev s x hx
    cases s with
    | nil => simp [reFindAllAux] at hx
    | cons c cs =>
      rw [reFindAllAux] at hx
      rcases hmatch : m prev (c :: cs) with _ | ⟨tok, rest⟩ <;>
        rw [hmatch] at hx <;> dsimp only at hx
      · exact ((List.infix_cons_iff).mpr (Or.inr (ih (some c) cs x hx)))
      · have hsplit : c :: cs = tok ++ rest := hm prev (c :: cs) tok rest hmatch
        split_ifs at hx with hl
        · rcases List.mem_cons.mp hx with rfl | hx'
          · exact ⟨[], rest, by simpa using hsplit.symm⟩
          · have : x <:+: rest := ih (lastOf tok c) rest x hx'
            exact this.trans ⟨tok, [], by simpa using hsplit.symm⟩
        · exact ((List.infix_cons_iff).mpr (Or.inr (ih (some c) cs x hx)))

/-- `reFindAll` only reports contiguous substrings of the text. -/
theorem reFindAll_infix
    (m : Option Char → List Char → Option (List Char × List Char))
    (hm : MatcherConsumes m) (s : List Char) (x : List Char)
    (hx : x ∈ reFindAll m none s) : x <:+: s :=
  reFindAllAux_infix m hm s.length none s x hx

/-- `strContains hay needle` is exactly substring containment. -/
theorem strContains_iff (hay needle : List Char) :
    strContains hay needle = true ↔ needle <:+: hay := by
  induction hay with
  | nil =>
    simp [strContains, List.isEmpty_iff, List.infix_nil]
  | cons c t ih =>
    simp only [strContains, Bool.or_eq_true, List.isPrefixOf_iff_prefix, ih,
      List.infix_cons_iff]

/-- The numeric-preservation check is exactly: for each pattern, every
match in the original also occurs among the candidate's matches. -/
theorem check_numeric_iff (o c : String) :
    HardRulesValidator.check_numeric_preservation o c = true ↔
      ∀ m ∈ HardRulesValidator.numericMatchers,
        ∀ x ∈ reFindAll m none o.data, x ∈ reFindAll m none c.data := by
  simp [HardRulesValidator.check_numeric_preservation, List.all_eq_true]

/-- The critical-token check is exactly substring containment of every
token. -/
theorem check_tokens_iff (c : String) (toks : List (List Char)) :
    HardRulesValidator.check_critical_tokens c toks = true ↔
      ∀ tok ∈ toks, tok <:+: c.data := by
  simp [HardRulesValidator.check_critical_tokens, List.all_eq_true,
    strContains_iff]

/-- The no-new-facts check is exactly the 0.4-threshold comparison on the
numbers of distinct substantial words. -/
theorem check_no_new_iff (o c : String) :
    HardRulesValidator.check_no_new_facts o c = true ↔
      ¬ (((HardRulesValidator.newWords o c).length : ℚ) >
         ((HardRulesValidator.substantialWords o).length : ℚ) * mkRat 2 5) := by
  unfold HardRulesValidator.check_no_new_facts
  split_ifs with hcond <;> simp [hcond]

/-- C6: `HardRulesValidator.validate` passes exactly when (1) for each of
the four numeric pattern classes every match in the original also occurs in
the candidate, (2) every critical token is a substring of the candidate and
(3) the number of new substantial words does not exceed 0.4 times the
number of the original's substantial words; moreover the three checks are
applied in this order, short-circuiting on the first failure, as the
returned reason shows.  The function is pure: it is a function of its three
arguments. -/
theorem c6_hard_rules_validate (o c : String) (toks : List (List Char)) :
    ((HardRulesValidator.validate o c toks).1 = true ↔
      ((∀ m ∈ HardRulesValidator.numericMatchers,
          ∀ x ∈ reFindAll m none o.data, x ∈ reFindAll m none c.data) ∧
       (∀ tok ∈ toks, tok <:+: c.data) ∧
       ¬ (((HardRulesValidator.newWords o c).length : ℚ) >
          ((HardRulesValidator.substantialWords o).length : ℚ) * mkRat 2 5))) ∧
    (¬ (∀ m ∈ HardRulesValidator.numericMatchers,
          ∀ x ∈ reFindAll m none o.data, x ∈ reFindAll m none c.data) →
      HardRulesValidator.validate o c toks =
        (false, "Números, fechas o porcentajes no fueron preservados")) ∧
    ((∀ m ∈ HardRulesValidator.numericMatchers,
        ∀ x ∈ reFindAll m none o.data, x ∈ reFindAll m none c.data) →
      ¬ (∀ tok ∈ toks, tok <:+: c.data) →
      HardRulesValidator.validate o c toks =
        (false, "No se preservaron todos los tokens críticos")) ∧
    ((∀ m ∈ HardRulesValidator.numericMatchers,
        ∀ x ∈ reFindAll m none o.data, x ∈ reFindAll m none c.data) →
      (∀ tok ∈ toks, tok <:+: c.data) →
      (((HardRulesValidator.newWords o c).length : ℚ) >
        ((HardRulesValidator.substantialWords o).length : ℚ) * mkRat 2 5) →
      HardRulesValidator.validate o c toks =
        (false, "Se detectaron hechos o información nueva")) ∧
    ((∀ m ∈ HardRulesValidator.numericMatchers,
        ∀ x ∈ reFindAll m none o.data, x ∈ reFindAll m none c.data) →
      (∀ tok ∈ toks, tok <:+: c.data) →
      ¬ (((HardRulesValidator.newWords o c).length : ℚ) >
         ((HardRulesValidator.substantialWords o).length : ℚ) * mkRat 2 5) →
      HardRulesValidator.validate o c toks = (true, "")) := by
  have hn := check_numeric_iff o c
  have ht := check_tokens_iff c toks
  have hf := check_no_new_iff o c
  rw [← hn, ← ht, ← hf]
  unfold HardRulesValidator.validate
  split_ifs with i1 i2 i3 <;>
    simp_all [HardRulesValidator.check_critical_tokens, List.isEmpty_iff] <;>
    · rcases eq_or_ne toks [] with rfl | hne
      · simp
      · exact i2 hne

/-- Witness for C6: the spec's example — an original carrying `15%` and
`25.99` — passes against a candidate retaining both (all three checks
discharged at these concrete strings through the theorem). -/
theorem c6_witness :
    HardRulesValidator.validate "El valor es 15% y 25.99"
      "El valor es 15% y 25.99 aproximadamente"
      [String.data "15%", String.data "25.99"] = (true, "") :=
  (c6_hard_rules_validate "El valor es 15% y 25.99"
      "El valor es 15% y 25.99 aproximadamente"
      [String.data "15%", String.data "25.99"]).2.2.2.2
    (by with_unfolding_all decide)
    (by with_unfolding_all decide)
    (by with_unfolding_all decide)

/-- C10: hard-rules validation is reflexive with respect to critical-token
extraction — every extracted token is a substring of the text it was
extracted from, and a text always passes its own hard rules with its own
extracted tokens. -/
theorem c10_reflexive (t : String) :
    (∀ tok ∈ WordCounter.extract_critical_tokens t, tok <:+: t.data) ∧
    HardRulesValidator.validate t t (WordCounter.extract_critical_tokens t)
      = (true, "") := by
  have htok : ∀ tok ∈ WordCounter.extract_critical_tokens t, tok <:+: t.data := by
    intro tok htokmem
    simp only [WordCounter.extract_critical_tokens, List.mem_dedup,
      List.mem_flatMap, WordCounter.criticalMatchers, List.mem_cons,
      List.not_mem_nil, or_false] at htokmem
    obtain ⟨m, hm, htokm⟩ := htokmem
    rcases hm with rfl | rfl | rfl | rfl
    · exact reFindAll_infix _ matchDecimal_consumes _ _ htokm
    · exact reFindAll_infix _ matchPercent_consumes _ _ htokm
    · exact reFindAll_infix _ matchDate_consumes _ _ htokm
    · exact reFindAll_infix _ matchAcronym_consumes _ _ htokm
  have h1 : HardRulesValidator.check_numeric_preservation t t = true := by
    rw [check_numeric_iff]
    exact fun m _ x hx => hx
  have h2 : HardRulesValidator.check_critical_tokens t
      (WordCounter.extract_critical_tokens t) = true := by
    rw [check_tokens_iff]
    exact htok
  have h3 : HardRulesValidator.check_no_new_facts t t = true := by
    rw [check_no_new_iff]
    have hnw : HardRulesValidator.newWords t t = [] := by
      unfold HardRulesValidator.newWords
      apply List.filter_eq_nil_iff.mpr
      intro w hw
      simp [hw]
    rw [hnw]
    push_neg
    have : (0 : ℚ) ≤ ((HardRulesValidator.substantialWords t).length : ℚ) * mkRat 2 5 := by
      apply mul_nonneg (Nat.cast_nonneg _)
      rw [Rat.mkRat_eq_div]
      norm_num
    simpa using this
  exact ⟨htok, by simp [HardRulesValidator.validate, h1, h2, h3]⟩

/-! ## Claims C1, C2 and C9 — the retry loop -/

/-- The fallback candidate after a non-accepted step (`none` when the step
accepted). -/
def stepFallback : RewriteOrchestrator.StepOut → Option (Option String)
  | .next st => some st.best_candidate
  | .accepted _ _ _ => none

/-- The best recorded similarity after a non-accepted step. -/
def stepBestSim : RewriteOrchestrator.StepOut → Option ℚ
  | .next st => some st.best_similarity
  | .accepted _ _ _ => none

/-- Every continuing step appends exactly one record, carrying the current
attempt number. -/
theorem attemptStep_next_attempts (client : LLMClient) (sem : SemFn)
    (request : InputRequest) (critical_tokens : List (List Char))
    (target_words : Int) (attempt_num : Nat)
    (st st' : RewriteOrchestrator.LoopState)
    (h : RewriteOrchestrator.attemptStep client sem request critical_tokens
      target_words attempt_num st = .next st') :
    ∃ rec : AttemptRecord, rec.attempt_number = attempt_num ∧
      st'.attempts = st.attempts ++ [rec] := by
  unfold RewriteOrchestrator.attemptStep at h
  rcases hrw : client.rewrite_text request.input_text request.min_words
      request.max_words target_words request.mode
      (RewriteOrchestrator.attemptDelta st.best_candidate target_words attempt_num)
      (if attempt_num = 1 then some critical_tokens else none) attempt_num
    with e | ⟨p, tm⟩ <;> rw [hrw] at h <;> dsimp only at h
  · simp only [RewriteOrchestrator.StepOut.next.injEq] at h
    exact ⟨_, rfl, by rw [← h]⟩
  · split_ifs at h <;>
      first
      | (simp only [RewriteOrchestrator.StepOut.next.injEq] at h
         exact ⟨_, rfl, by rw [← h]⟩)
      | simp at h

/-- An accepting step records the current attempt number. -/
theorem attemptStep_accepted_number (client : LLMClient) (sem : SemFn)
    (request : InputRequest) (critical_tokens : List (List Char))
    (target_words : Int) (attempt_num : Nat)
    (st : RewriteOrchestrator.LoopState) (rec : AttemptRecord) (p : String)
    (pc : Nat)
    (h : RewriteOrchestrator.attemptStep client sem request critical_tokens
      target_words attempt_num st = .accepted rec p pc) :
    rec.attempt_number = attempt_num := by
  unfold RewriteOrchestrator.attemptStep at h
  rcases hrw : client.rewrite_text request.input_text request.min_words
      request.max_words target_words request.mode
      (RewriteOrchestrator.attemptDelta st.best_candidate target_words attempt_num)
      (if attempt_num = 1 then some critical_tokens else none) attempt_num
    with e | ⟨pp, tm⟩ <;> rw [hrw] at h <;> dsimp only at h
  · simp at h
  · split_ifs at h <;>
      first
      | (injection h with h1 h2 h3
         rw [← h1])
      | injection h

/-- A run of the retry loop either returns an ACCEPTED result or the
exhaustion result of some final state. -/
theorem runAttempts_cases (client : LLMClient) (sem : SemFn)
    (request : InputRequest) (original_count : Nat)
    (critical_tokens : List (List Char)) (target_words : Int) :
    ∀ (fuel attempt_num : Nat) (st : RewriteOrchestrator.LoopState),
      (RewriteOrchestrator.runAttempts client sem request original_count
        critical_tokens target_words fuel attempt_num st).status = "ACCEPTED" ∨
      ∃ st', RewriteOrchestrator.runAttempts client sem request original_count
        critical_tokens target_words fuel attempt_num st =
          RewriteOrchestrator.exhaustResult request original_count target_words st' := by
  intro fuel
  induction fuel with
  | zero => exact fun _ st => Or.inr ⟨st, rfl⟩
  | succ f ih =>
    intro attempt_num st
    rw [RewriteOrchestrator.runAttempts]
    rcases hstep : RewriteOrchestrator.attemptStep client sem request
        critical_tokens target_words attempt_num st with ⟨rec, p, pc⟩ | st' <;>
      dsimp only
    · exact Or.inl rfl
    · exact ih (attempt_num + 1) st'

/-- The exhaustion result: `max_attempts` total attempts and either the
truthy fallback with status REJECTED_NO_VALID_CANDIDATE, or status ERROR
with empty text. -/
theorem exhaustResult_spec (request : InputRequest) (original_count : Nat)
    (target_words : Int) (st : RewriteOrchestrator.LoopState) :
    (RewriteOrchestrator.exhaustResult request original_count target_words st).total_attempts
      = request.max_attempts ∧
    (RewriteOrchestrator.exhaustResult request original_count target_words st).status
      ≠ "ACCEPTED" ∧
    (((RewriteOrchestrator.exhaustResult request original_count target_words st).status
        = "REJECTED_NO_VALID_CANDIDATE" ∧
      (RewriteOrchestrator.exhaustResult request original_count target_words st).final_text
        ≠ "" ∧
      (RewriteOrchestrator.exhaustResult request original_count target_words st).final_word_count
        = WordCounter.count
          (RewriteOrchestrator.exhaustResult request original_count target_words st).final_text) ∨
     ((RewriteOrchestrator.exhaustResult request original_count target_words st).status
        = "ERROR" ∧
      (RewriteOrchestrator.exhaustResult request original_count target_words st).final_text
        = "")) := by
  unfold RewriteOrchestrator.exhaustResult
  rcases hbc : st.best_candidate with _ | bc
  · exact ⟨rfl,
      fun hc => absurd hc (by decide : ("ERROR" : String) ≠ "ACCEPTED"),
      Or.inr ⟨rfl, rfl⟩⟩
  · dsimp only
    by_cases hbe : bc.isEmpty
    · rw [if_neg (by simp [hbe])]
      exact ⟨rfl,
        fun hc => absurd hc (by decide : ("ERROR" : String) ≠ "ACCEPTED"),
        Or.inr ⟨rfl, rfl⟩⟩
    · rw [if_pos (by simp [hbe])]
      refine ⟨rfl,
        fun hc => absurd hc
          (by decide : ("REJECTED_NO_VALID_CANDIDATE" : String) ≠ "ACCEPTED"),
        Or.inl ⟨rfl, ?_, rfl⟩⟩
      simpa [String.isEmpty_iff] using hbe

/-- A request with a three-word text against range `[1, 2]` and one
attempt, whose rewrite call succeeds but returns the empty string. -/
def emptyFallbackReq : InputRequest :=
  { input_text := "a b c", min_words := 1, max_words := 2, max_attempts := 1 }

/-- Counterexample for C2 as stated: the single attempt's rewrite call
succeeds (the record carries no error message) and its empty text is
recorded as the fallback, yet — because the exhaustion check uses Python
truthiness, and the empty string is falsy — the run ends in ERROR, not
REJECTED_NO_VALID_CANDIDATE. -/
theorem c2_counterexample :
    RewriteOrchestrator.validate_request emptyFallbackReq = true ∧
    ¬ (emptyFallbackReq.min_words ≤
        (WordCounter.count emptyFallbackReq.input_text : Int) ∧
       (WordCounter.count emptyFallbackReq.input_text : Int) ≤
        emptyFallbackReq.max_words) ∧
    (RewriteOrchestrator.orchestrate emptyTextClient passSem emptyFallbackReq).attempts.map
      (fun r => (r.error_message, r.proposed_text, r.status)) =
      [(none, "", AttemptStatus.OUT_OF_RANGE)] ∧
    (RewriteOrchestrator.orchestrate emptyTextClient passSem emptyFallbackReq).status
      = "ERROR" ∧
    (RewriteOrchestrator.orchestrate emptyTextClient passSem emptyFallbackReq).status
      ≠ "REJECTED_NO_VALID_CANDIDATE" := by
  refine ⟨?_, ?_, ?_, ?_, ?_⟩ <;> with_unfolding_all decide

/-- C2 (amended): for every valid, not-already-in-range request whose run
ends without acceptance, `total_attempts` equals `max_attempts` and either
the status is REJECTED_NO_VALID_CANDIDATE with the non-empty fallback text
(whose word count is the final word count), or the status is ERROR with
empty final text — the latter both when no rewrite call ever succeeded and
when the last recorded fallback is the empty string. -/
theorem c2_exhaustion_outcome (client : LLMClient) (sem : SemFn)
    (request : InputRequest)
    (hv : RewriteOrchestrator.validate_request request = true)
    (hnr : ¬ (request.min_words ≤ (WordCounter.count request.input_text : Int) ∧
      (WordCounter.count request.input_text : Int) ≤ request.max_words))
    (hna : (RewriteOrchestrator.orchestrate client sem request).status ≠ "ACCEPTED") :
    (RewriteOrchestrator.orchestrate client sem request).total_attempts
      = request.max_attempts ∧
    (((RewriteOrchestrator.orchestrate client sem request).status
        = "REJECTED_NO_VALID_CANDIDATE" ∧
      (RewriteOrchestrator.orchestrate client sem request).final_text ≠ "" ∧
      (RewriteOrchestrator.orchestrate client sem request).final_word_count
        = WordCounter.count
          (RewriteOrchestrator.orchestrate client sem request).final_text) ∨
     ((RewriteOrchestrator.orchestrate client sem request).status = "ERROR" ∧
      (RewriteOrchestrator.orchestrate client sem request).final_text = "")) := by
  have horch : RewriteOrchestrator.orchestrate client sem request =
      RewriteOrchestrator.runAttempts client sem request
        (WordCounter.count request.input_text)
        (WordCounter.extract_critical_tokens request.input_text)
        (RewriteOrchestrator.calculate_target_words
          (WordCounter.count request.input_text)
          request.min_words request.max_words)
        request.max_attempts.toNat 1 ⟨[], none, -1⟩ := by
    unfold RewriteOrchestrator.orchestrate
    rw [hv]
    simp only [Bool.true_eq_false, not_true_eq_false, if_false, if_neg hnr]
  rw [horch] at hna ⊢
  rcases runAttempts_cases client sem request
      (WordCounter.count request.input_text)
      (WordCounter.extract_critical_tokens request.input_text)
      (RewriteOrchestrator.calculate_target_words
        (WordCounter.count request.input_text)
        request.min_words request.max_words)
      request.max_attempts.toNat 1 ⟨[], none, -1⟩ with hacc | ⟨st', heq⟩
  · exact absurd hacc hna
  · rw [heq]
    obtain ⟨h1, _, h3⟩ := exhaustResult_spec request
      (WordCounter.count request.input_text)
      (RewriteOrchestrator.calculate_target_words
        (WordCounter.count request.input_text)
        request.min_words request.max_words) st'
    exact ⟨h1, h3⟩

/-- Witness for C2 (amended): a valid out-of-range request whose only
attempt fails to call the collaborator ends in ERROR with empty text after
exactly `max_attempts` attempts. -/
theorem c2_witness :
    (RewriteOrchestrator.orchestrate failingClient passSem emptyFallbackReq).total_attempts
      = emptyFallbackReq.max_attempts ∧
    (((RewriteOrchestrator.orchestrate failingClient passSem emptyFallbackReq).status
        = "REJECTED_NO_VALID_CANDIDATE" ∧
      (RewriteOrchestrator.orchestrate failingClient passSem emptyFallbackReq).final_text ≠ "" ∧
      (RewriteOrchestrator.orchestrate failingClient passSem emptyFallbackReq).final_word_count
        = WordCounter.count
          (RewriteOrchestrator.orchestrate failingClient passSem emptyFallbackReq).final_text) ∨
     ((RewriteOrchestrator.orchestrate failingClient passSem emptyFallbackReq).status = "ERROR" ∧
      (RewriteOrchestrator.orchestrate failingClient passSem emptyFallbackReq).final_text = "")) :=
  c2_exhaustion_outcome failingClient passSem emptyFallbackReq
    (by decide) (by decide) (by with_unfolding_all decide)

/-- `List.range' 1` grows by appending the next index. -/
theorem range'_snoc (k : Nat) :
    List.range' 1 (k + 1) = List.range' 1 k ++ [k + 1] := by
  simpa [Nat.add_comm] using @List.range'_concat 1 1 k

/-- The exhaustion result returns the accumulated attempt log unchanged. -/
theorem exhaustResult_attempts (request : InputRequest) (original_count : Nat)
    (target_words : Int) (st : RewriteOrchestrator.LoopState) :
    (RewriteOrchestrator.exhaustResult request original_count target_words st).attempts
      = st.attempts := by
  unfold RewriteOrchestrator.exhaustResult
  rcases st.best_candidate with _ | bc
  · rfl
  · dsimp only
    split_ifs <;> rfl

/-- Invariant of the retry loop: if the accumulated log carries indices
`1..k` and the loop continues at attempt `k + 1`, the final log carries
indices `1..k'` for its own length `k'`, at most `k + fuel` records are ever
accumulated, and an ACCEPTED exit reports the log length as
`total_attempts`. -/
theorem runAttempts_indices (client : LLMClient) (sem : SemFn)
    (request : InputRequest) (original_count : Nat)
    (critical_tokens : List (List Char)) (target_words : Int) :
    ∀ (fuel k : Nat) (st : RewriteOrchestrator.LoopState),
      st.attempts.map (fun r => r.attempt_number) = List.range' 1 k →
      ((RewriteOrchestrator.runAttempts client sem request original_count
          critical_tokens target_words fuel (k + 1) st).attempts.map
          (fun r => r.attempt_number)
        = List.range' 1
          (RewriteOrchestrator.runAttempts client sem request original_count
            critical_tokens target_words fuel (k + 1) st).attempts.length) ∧
      (RewriteOrchestrator.runAttempts client sem request original_count
        critical_tokens target_words fuel (k + 1) st).attempts.length ≤ k + fuel ∧
      ((RewriteOrchestrator.runAttempts client sem request original_count
          critical_tokens target_words fuel (k + 1) st).status = "ACCEPTED" →
        (RewriteOrchestrator.runAttempts client sem request original_count
          critical_tokens target_words fuel (k + 1) st).total_attempts
          = ((RewriteOrchestrator.runAttempts client sem request original_count
              critical_tokens target_words fuel (k + 1) st).attempts.length : Int)) := by
  intro fuel
  induction fuel with
  | zero =>
    intro k st hinv
    have hlen : st.attempts.length = k := by
      have := congrArg List.length hinv
      simpa using this
    refine ⟨?_, ?_, ?_⟩
    · rw [show RewriteOrchestrator.runAttempts client sem request original_count
          critical_tokens target_words 0 (k + 1) st
        = RewriteOrchestrator.exhaustResult request original_count target_words st
        from rfl, exhaustResult_attempts, hinv, hlen]
    · rw [show RewriteOrchestrator.runAttempts client sem request original_count
          critical_tokens target_words 0 (k + 1) st
        = RewriteOrchestrator.exhaustResult request original_count target_words st
        from rfl, exhaustResult_attempts, hlen]
      omega
    · intro hacc
      exact absurd hacc
        (exhaustResult_spec request original_count target_words st).2.1
  | succ f ih =>
    intro k st hinv
    have hlen : st.attempts.length = k := by
      have := congrArg List.length hinv
      simpa using this
    rw [RewriteOrchestrator.runAttempts]
    rcases hstep : RewriteOrchestrator.attemptStep client sem request
        critical_tokens target_words (k + 1) st with ⟨rec, p, pc⟩ | st' <;>
      dsimp only
    · have hnum := attemptStep_accepted_number client sem request critical_tokens
        target_words (k + 1) st rec p pc hstep
      have hlen2 : (st.attempts ++ [rec]).length = k + 1 := by simp [hlen]
      refine ⟨?_, ?_, fun _ => ?_⟩
      · rw [hlen2, List.map_append, hinv, range'_snoc]
        simp [hnum]
      · rw [hlen2]
        omega
      · rw [hlen2]
    · obtain ⟨rec, hrecnum, hst'⟩ := attemptStep_next_attempts client sem request
        critical_tokens target_words (k + 1) st st' hstep
      have hinv' : st'.attempts.map (fun r => r.attempt_number)
          = List.range' 1 (k + 1) := by
        rw [hst', List.map_append, hinv, range'_snoc]
        simp [hrecnum]
      have h := ih (k + 1) st' hinv'
      exact ⟨h.1, by have := h.2.1; omega, h.2.2⟩

/-- C9: in every result of `orchestrate` the attempt indices are exactly the
contiguous integers `1..k` in order where `k` is the length of the log,
`k ≤ max_attempts`, and an ACCEPTED result reports the log length (the
index of the accepting attempt) as `total_attempts` — in particular the
loop appends exactly one record per iteration. -/
theorem c9_attempt_indices (client : LLMClient) (sem : SemFn)
    (request : InputRequest) :
    ((RewriteOrchestrator.orchestrate client sem request).attempts.map
        (fun r => r.attempt_number)
      = List.range' 1
        (RewriteOrchestrator.orchestrate client sem request).attempts.length) ∧
    (RewriteOrchestrator.orchestrate client sem request).attempts.length
      ≤ request.max_attempts.toNat ∧
    ((RewriteOrchestrator.orchestrate client sem request).status = "ACCEPTED" →
      (RewriteOrchestrator.orchestrate client sem request).total_attempts
        = ((RewriteOrchestrator.orchestrate client sem request).attempts.length
          : Int)) := by
  unfold RewriteOrchestrator.orchestrate
  dsimp only
  split_ifs with h1 h2
  all_goals
    first
    | exact ⟨rfl, by simp, fun _ => rfl⟩
    | (have h := runAttempts_indices client sem request
        (WordCounter.count request.input_text)
        (WordCounter.extract_critical_tokens request.input_text)
        (RewriteOrchestrator.calculate_target_words
          (WordCounter.count request.input_text)
          request.min_words request.max_words)
        request.max_attempts.toNat 0 ⟨[], none, -1⟩ rfl
       exact ⟨h.1, by simpa using h.2.1, h.2.2⟩)

/-- A collaborator that always proposes the same five-word text. -/
def acceptClient : LLMClient :=
  ⟨fun _ _ _ _ _ _ _ _ => Except.ok ("a b c d e", none)⟩

/-- A request for which `acceptClient`'s proposal is accepted on the first
attempt. -/
def acceptReq : InputRequest :=
  { input_text := "a b c d e f g h i j", min_words := 3, max_words := 5,
    max_attempts := 2 }

/-- Witness for C9 on a concrete accepted run: the log carries index 1
only, within the attempt budget, and `total_attempts` equals the log
length. -/
theorem c9_witness :
    ((RewriteOrchestrator.orchestrate acceptClient passSem acceptReq).attempts.map
        (fun r => r.attempt_number)
      = List.range' 1
        (RewriteOrchestrator.orchestrate acceptClient passSem acceptReq).attempts.length) ∧
    (RewriteOrchestrator.orchestrate acceptClient passSem acceptReq).total_attempts
      = ((RewriteOrchestrator.orchestrate acceptClient passSem acceptReq).attempts.length
        : Int) :=
  ⟨(c9_attempt_indices acceptClient passSem acceptReq).1,
   (c9_attempt_indices acceptClient passSem acceptReq).2.2
     (by with_unfolding_all decide)⟩

/-- C1 (fallback-policy part): after a non-accepted attempt whose rewrite
call succeeded with text `p`, the fallback updates asymmetrically — an
out-of-range candidate, or an in-range candidate failing hard rules, always
overwrites the fallback; an in-range candidate passing hard rules but
failing the semantic gate replaces the fallback (and the recorded best
similarity) only when its similarity strictly exceeds the best similarity
seen so far among semantically rejected candidates. -/
theorem attemptStep_fallback_policy (client : LLMClient) (sem : SemFn)
    (request : InputRequest) (critical_tokens : List (List Char))
    (target_words : Int) (attempt_num : Nat)
    (st : RewriteOrchestrator.LoopState) (p : String) (tm : Option TokenMetrics)
    (hok : client.rewrite_text request.input_text request.min_words
      request.max_words target_words request.mode
      (RewriteOrchestrator.attemptDelta st.best_candidate target_words attempt_num)
      (if attempt_num = 1 then some critical_tokens else none) attempt_num
      = Except.ok (p, tm)) :
    (¬ (request.min_words ≤ (WordCounter.count p : Int) ∧
        (WordCounter.count p : Int) ≤ request.max_words) →
      stepFallback (RewriteOrchestrator.attemptStep client sem request
        critical_tokens target_words attempt_num st) = some (some p)) ∧
    ((request.min_words ≤ (WordCounter.count p : Int) ∧
        (WordCounter.count p : Int) ≤ request.max_words) →
      (HardRulesValidator.validate request.input_text p critical_tokens).1 = false →
      stepFallback (RewriteOrchestrator.attemptStep client sem request
        critical_tokens target_words attempt_num st) = some (some p)) ∧
    ((request.min_words ≤ (WordCounter.count p : Int) ∧
        (WordCounter.count p : Int) ≤ request.max_words) →
      (HardRulesValidator.validate request.input_text p critical_tokens).1 = true →
      (sem request.input_text p (RewriteOrchestrator.semanticThreshold request.mode)).1
        = false →
      stepFallback (RewriteOrchestrator.attemptStep client sem request
          critical_tokens target_words attempt_num st)
        = some (if st.best_similarity <
            (sem request.input_text p
              (RewriteOrchestrator.semanticThreshold request.mode)).2.1
          then some p else st.best_candidate) ∧
      stepBestSim (RewriteOrchestrator.attemptStep client sem request
          critical_tokens target_words attempt_num st)
        = some (if st.best_similarity <
            (sem request.input_text p
              (RewriteOrchestrator.semanticThreshold request.mode)).2.1
          then (sem request.input_text p
              (RewriteOrchestrator.semanticThreshold request.mode)).2.1
          else st.best_similarity)) := by
  refine ⟨fun hnr => ?_, fun hir hhr => ?_, fun hir hhr hsv => ?_⟩ <;>
    (unfold RewriteOrchestrator.attemptStep
     rw [hok]
     dsimp only)
  · rw [if_pos hnr]
    rfl
  · rw [if_neg (not_not_intro hir), if_pos (by simp [hhr])]
    rfl
  · rw [if_neg (not_not_intro hir), if_neg (by simp [hhr]),
      if_pos (by simp [hsv])]
    exact ⟨rfl, rfl⟩

/-- Scenario collaborator: three in-range proposals, one per attempt. -/
def scenClient : LLMClient :=
  ⟨fun _ _ _ _ _ _ _ attempt_number =>
    if attempt_number = 1 then Except.ok ("a b c", none)
    else if attempt_number = 2 then Except.ok ("a b d", none)
    else Except.ok ("a b e", none)⟩

/-- Scenario similarity scores: 0.60, 0.70, 0.65 for the three proposals. -/
def scenSims (candidate : String) : ℚ :=
  if candidate = "a b c" then mkRat 3 5
  else if candidate = "a b d" then mkRat 7 10
  else mkRat 13 20

/-- Scenario semantic validator: compares the scripted similarity against
the threshold it receives, as the real validator does. -/
def scenSem : SemFn :=
  fun _ candidate threshold =>
    (decide (threshold ≤ scenSims candidate), scenSims candidate, "")

/-- Scenario request: a ten-word text against range `[3, 5]` in BALANCED
mode (threshold 0.75) with three attempts. -/
def scenReq : InputRequest :=
  { input_text := "a b c d e f g h i j", min_words := 3, max_words := 5,
    mode := Mode.BALANCED, max_attempts := 3 }

/-- Scenario run: all three attempts return in-range text failing the
semantic gate with similarities 0.60, 0.70, 0.65 against threshold 0.75;
at exhaustion the fallback is the attempt with similarity 0.70 and the
final status is REJECTED_NO_VALID_CANDIDATE. -/
theorem scenarioRun_spec :
    RewriteOrchestrator.semanticThreshold scenReq.mode = 0.75 ∧
    (RewriteOrchestrator.orchestrate scenClient scenSem scenReq).attempts.map
      (fun r => (r.status, r.similarity_score)) =
      [(AttemptStatus.REJECTED_BY_SEMANTIC_SIMILARITY, some 0.60),
       (AttemptStatus.REJECTED_BY_SEMANTIC_SIMILARITY, some 0.70),
       (AttemptStatus.REJECTED_BY_SEMANTIC_SIMILARITY, some 0.65)] ∧
    (RewriteOrchestrator.orchestrate scenClient scenSem scenReq).status
      = "REJECTED_NO_VALID_CANDIDATE" ∧
    (RewriteOrchestrator.orchestrate scenClient scenSem scenReq).final_text
      = "a b d" := by
  have e60 : (0.60 : ℚ) = mkRat 3 5 := by rw [Rat.mkRat_eq_div]; norm_num
  have e70 : (0.70 : ℚ) = mkRat 7 10 := by rw [Rat.mkRat_eq_div]; norm_num
  have e65 : (0.65 : ℚ) = mkRat 13 20 := by rw [Rat.mkRat_eq_div]; norm_num
  have e75 : (0.75 : ℚ) = mkRat 3 4 := by rw [Rat.mkRat_eq_div]; norm_num
  rw [e60, e70, e65, e75]
  refine ⟨?_, ?_, ?_, ?_⟩ <;> with_unfolding_all decide

/-- C1: the asymmetric fallback policy — after every non-accepted attempt
whose rewrite call succeeded, an out-of-range or hard-rules-failing
candidate always overwrites the fallback, while an in-range, hard-rules
passing, semantically rejected candidate replaces the fallback only when
its similarity strictly exceeds the best similarity recorded so far among
semantically rejected candidates; in particular, for in-range semantic
rejections with similarities 0.60, 0.70, 0.65 against threshold 0.75, the
fallback at exhaustion is the attempt with similarity 0.70. -/
theorem c1_fallback_policy :
    (∀ (client : LLMClient) (sem : SemFn) (request : InputRequest)
       (critical_tokens : List (List Char)) (target_words : Int)
       (attempt_num : Nat) (st : RewriteOrchestrator.LoopState)
       (p : String) (tm : Option TokenMetrics),
      client.rewrite_text request.input_text request.min_words
        request.max_words target_words request.mode
        (RewriteOrchestrator.attemptDelta st.best_candidate target_words attempt_num)
        (if attempt_num = 1 then some critical_tokens else none) attempt_num
        = Except.ok (p, tm) →
      (¬ (request.min_words ≤ (WordCounter.count p : Int) ∧
          (WordCounter.count p : Int) ≤ request.max_words) →
        stepFallback (RewriteOrchestrator.attemptStep client sem request
          critical_tokens target_words attempt_num st) = some (some p)) ∧
      ((request.min_words ≤ (WordCounter.count p : Int) ∧
          (WordCounter.count p : Int) ≤ request.max_words) →
        (HardRulesValidator.validate request.input_text p critical_tokens).1 = false →
        stepFallback (RewriteOrchestrator.attemptStep client sem request
          critical_tokens target_words attempt_num st) = some (some p)) ∧
      ((request.min_words ≤ (WordCounter.count p : Int) ∧
          (WordCounter.count p : Int) ≤ request.max_words) →
        (HardRulesValidator.validate request.input_text p critical_tokens).1 = true →
        (sem request.input_text p (RewriteOrchestrator.semanticThreshold request.mode)).1
          = false →
        stepFallback (RewriteOrchestrator.attemptStep client sem request
            critical_tokens target_words attempt_num st)
          = some (if st.best_similarity <
              (sem request.input_text p
                (RewriteOrchestrator.semanticThreshold request.mode)).2.1
            then some p else st.best_candidate) ∧
        stepBestSim (RewriteOrchestrator.attemptStep client sem request
            critical_tokens target_words attempt_num st)
          = some (if st.best_similarity <
              (sem request.input_text p
                (RewriteOrchestrator.semanticThreshold request.mode)).2.1
            then (sem request.input_text p
                (RewriteOrchestrator.semanticThreshold request.mode)).2.1
            else st.best_similarity))) ∧
    (RewriteOrchestrator.semanticThreshold scenReq.mode = 0.75 ∧
     (RewriteOrchestrator.orchestrate scenClient scenSem scenReq).attempts.map
       (fun r => (r.status, r.similarity_score)) =
       [(AttemptStatus.REJECTED_BY_SEMANTIC_SIMILARITY, some 0.60),
        (AttemptStatus.REJECTED_BY_SEMANTIC_SIMILARITY, some 0.70),
        (AttemptStatus.REJECTED_BY_SEMANTIC_SIMILARITY, some 0.65)] ∧
     (RewriteOrchestrator.orchestrate scenClient scenSem scenReq).status
       = "REJECTED_NO_VALID_CANDIDATE" ∧
     (RewriteOrchestrator.orchestrate scenClient scenSem scenReq).final_text
       = "a b d") :=
  ⟨fun client sem request critical_tokens target_words attempt_num st p tm hok =>
    attemptStep_fallback_policy client sem request critical_tokens target_words
      attempt_num st p tm hok,
   scenarioRun_spec⟩

/-- Witness for the policy part of C1, at attempt 1 of the scenario run:
the first in-range, hard-rules-passing, semantically rejected proposal
(similarity 0.60 exceeding the initial -1.0) becomes the fallback, and the
best recorded similarity becomes 0.60. -/
theorem c1_policy_witness :
    stepFallback (RewriteOrchestrator.attemptStep scenClient scenSem scenReq
        (WordCounter.extract_critical_tokens scenReq.input_text) 5 1
        ⟨[], none, -1⟩)
      = some (some "a b c") ∧
    stepBestSim (RewriteOrchestrator.attemptStep scenClient scenSem scenReq
        (WordCounter.extract_critical_tokens scenReq.input_text) 5 1
        ⟨[], none, -1⟩)
      = some (mkRat 3 5) := by
  have h := (c1_fallback_policy.1 scenClient scenSem scenReq
    (WordCounter.extract_critical_tokens scenReq.input_text) 5 1
    ⟨[], none, -1⟩ "a b c" none (by with_unfolding_all rfl)).2.2
    (by with_unfolding_all decide)
    (by with_unfolding_all decide)
    (by with_unfolding_all decide)
  constructor
  · rw [h.1]
    with_unfolding_all decide
  · rw [h.2]
    with_unfolding_all decide

/-- Witness for C10 at a concrete text carrying a percentage, a decimal, a
date and an acronym. -/
theorem c10_witness :
    HardRulesValidator.validate "El 15% de 25.99 el 01/02/2024 según la ONU"
      "El 15% de 25.99 el 01/02/2024 según la ONU"
      (WordCounter.extract_critical_tokens
        "El 15% de 25.99 el 01/02/2024 según la ONU") = (true, "") :=
  (c10_reflexive "El 15% de 25.99 el 01/02/2024 según la ONU").2

end ContadorPalabras
